import Mathlib

/-!
Verification of the API gateway request-path core
(`src/api-gateway/src/index.js`) against its specification.

The JavaScript source is shallowly embedded: timestamps are `Int`
(milliseconds), the per-service breaker record is a structure mirroring the
`circuitBreakers[service]` object, the load map is an insertion-ordered
association list mirroring a JS `Map`, and the outcome of an outbound HTTP
forward is an explicit variant type.  JS truthiness coercions that the code
relies on (`null` coerced to `0` in arithmetic, the empty string falsy in `||`) are
embedded explicitly where they occur.
-/

/-- Breaker states. The source stores the strings
CLOSED / OPEN / HALF-OPEN. -/
inductive BState where
  | CLOSED
  | OPEN
  | HALF_OPEN
deriving DecidableEq, Repr

/-- One entry of `circuitBreakers`: per-service breaker record, field for
field as initialised at the top of the source (failures, lastFailure,
state, reroutes, lastReroute, consecutiveReroutes). `null` timestamps are
`none`. -/
structure Breaker where
  failures : Nat
  lastFailure : Option Int
  state : BState
  reroutes : Nat
  lastReroute : Option Int
  consecutiveReroutes : Nat
deriving DecidableEq, Repr

/-- The initial breaker record for each service. -/
def Breaker.init : Breaker :=
  { failures := 0, lastFailure := none, state := BState.CLOSED,
    reroutes := 0, lastReroute := none, consecutiveReroutes := 0 }

/-- `checkCircuitBreaker(service)` (line 248).  In `now - breaker.lastFailure`
a `null` `lastFailure` coerces to `0` in JS; embedded with `getD 0`.
Returns the gate decision together with the updated record. -/
def checkCircuitBreaker (errorTimeout : Int) (now : Int) (b : Breaker) :
    Bool × Breaker :=
  if b.state = BState.OPEN then
    if now - (b.lastFailure.getD 0) > errorTimeout then
      (true, { b with state := BState.HALF_OPEN, consecutiveReroutes := 0 })
    else
      (false, b)
  else
    (true, b)

/-- The JS guard
`breaker.lastReroute && (now - breaker.lastReroute) <= 5000`: truthiness
on the stored timestamp (`null` and `0` are falsy), then the 5000 ms
reroute window. -/
def rerouteIsConsec (now : Int) (b : Breaker) : Bool :=
  match b.lastReroute with
  | some lr => lr ≠ 0 && now - lr ≤ 5000
  | none => false

/-- `recordReroute(service)` (line 264).  Returns
`(allowed, record)`: `false` when the consecutive-reroute threshold trips
the breaker OPEN. -/
def recordReroute (rerouteThreshold : Nat) (now : Int) (b : Breaker) :
    Bool × Breaker :=
  let cr : Nat := if rerouteIsConsec now b then b.consecutiveReroutes + 1
                  else 1
  let b1 := { b with consecutiveReroutes := cr, reroutes := b.reroutes + 1,
                     lastReroute := some now }
  if cr ≥ rerouteThreshold then
    (false, { b1 with state := BState.OPEN, lastFailure := some now })
  else
    (true, b1)

/-- `recordFailure(service)`: the later, metric-updating variant (line 502)
is authoritative; its breaker-state logic coincides with the earlier
variant (line 289).  Note the source assigns `breaker.lastFailure = now`
before comparing `now - breaker.lastFailure` to the window. -/
def recordFailure (errorThreshold : Nat) (errorTimeout : Int) (now : Int)
    (b : Breaker) : Breaker :=
  let b1 := { b with failures := b.failures + 1, lastFailure := some now }
  if b1.failures ≥ errorThreshold then
    if now - (b1.lastFailure.getD 0) ≤ errorTimeout then
      { b1 with state := BState.OPEN }
    else
      { b1 with failures := 1 }
  else
    b1

/-- `recordSuccess(service)` (line 306): acts only in HALF-OPEN state. -/
def recordSuccess (b : Breaker) : Breaker :=
  if b.state = BState.HALF_OPEN then
    { b with state := BState.CLOSED, failures := 0, lastFailure := none,
             consecutiveReroutes := 0 }
  else
    b

/-- Default `ERROR_THRESHOLD` (3). -/
def ERROR_THRESHOLD : Nat := 3

/-- Default `ERROR_TIMEOUT` in milliseconds (17500). -/
def ERROR_TIMEOUT : Int := 17500

/-- Default `REROUTE_THRESHOLD` (2). -/
def REROUTE_THRESHOLD : Nat := 2

/-! ## Load map and instance selection

`serviceLoads[serviceType]` is a JS `Map` from instance to the scraped
metrics object; we model it as an insertion-ordered association list from
instance name to the `requestsPerSecond` field of the object (`none` when the
stored object lacks the field).  Setting an existing key updates it in
place; a new key is appended, exactly as a JS `Map` behaves. -/

/-- A JS `Map` from instance to stored load value, in insertion order. -/
abbrev LoadMap := List (String × Option Int)

/-- `Map.prototype.set`: update in place when the key exists, else append. -/
def mapSet (m : LoadMap) (k : String) (v : Option Int) : LoadMap :=
  if (List.any m (fun p => p.1 = k)) then
    List.map (fun p => if p.1 = k then (k, v) else p) m
  else
    m ++ [(k, v)]

/-- `updateServiceLoad(serviceType, instance)` (line 374): a successful
metrics scrape (`sample inst = some load`) stores `response.data` in the
map; a failed scrape returns `null` and leaves the map untouched (the
previous, now stale, entry survives). -/
def updateServiceLoad (sample : String → Option (Option Int))
    (m : LoadMap) (inst : String) : LoadMap :=
  match sample inst with
  | some load => mapSet m inst load
  | none => m

/-- The comparator key order of
`(a, b) => loadA - loadB` with `loadX = x?.requestsPerSecond ?? Infinity`:
a missing field is `Infinity`, so `none` sorts strictly after every known
value and compares as equal to another `none`. -/
def ltKey : Option Int → Option Int → Bool
  | some a, some b => a < b
  | some _, none => true
  | none, _ => false

/-- Non-strict version of the comparator order. -/
def leKey (a b : Option Int) : Bool := !ltKey b a

/-- Insert into a sorted list after all entries that do not compare
strictly greater — the placement a stable ascending sort gives a later
element. -/
def insertByLoad (x : String × Option Int) :
    List (String × Option Int) → List (String × Option Int)
  | [] => [x]
  | y :: ys =>
    if ltKey x.2 y.2 then x :: y :: ys else y :: insertByLoad x ys

/-- `Array.prototype.sort` with the load comparator: stable ascending sort
(ES2019 guarantees stability), realised as left-to-right insertion. -/
def sortByLoad (l : List (String × Option Int)) :
    List (String × Option Int) :=
  List.foldl (fun acc x => insertByLoad x acc) [] l

/-- `selectServiceInstance(serviceType, instances)` (line 398), given the
health view `healthy` and the per-instance scrape outcome `sample`.
Returns the choice together with the updated load map.  In the source,
`loads[0]?.[0] || healthyInstances[0]` makes an empty-string key fall back
to the first healthy instance, because the empty string is falsy. -/
def selectServiceInstance (healthy : String → Bool)
    (sample : String → Option (Option Int)) (m : LoadMap)
    (instances : List String) : Option String × LoadMap :=
  if instances.isEmpty then
    (none, m)
  else
    let hl := instances.filter healthy
    if hl.isEmpty then
      (some (instances.headD ""), m)
    else
      let m1 := hl.foldl (updateServiceLoad sample) m
      let fm := m1.filter (fun p => hl.contains p.1)
      match (sortByLoad fm).head? with
      | some kv =>
        (some (if kv.1 = "" then hl.headD "" else kv.1), m1)
      | none => (some (hl.headD ""), m1)

/-- The first entry with minimal comparator key: the linear scan keeps the
earlier entry on ties, which is exactly what the head of a stable
ascending sort is. -/
def firstMinAux (best : String × Option Int) :
    List (String × Option Int) → String × Option Int
  | [] => best
  | x :: xs => firstMinAux (if ltKey x.2 best.2 then x else best) xs

/-- First minimal entry of a list, `none` for the empty list. -/
def firstMin : List (String × Option Int) → Option (String × Option Int)
  | [] => none
  | h :: t => some (firstMinAux h t)

/-! ## Router (`routeToService`) -/

/-- What the backend does with the forwarded request: a settled HTTP
response (with its status, raw body, and the optional `detail` field of the
body if it is a JSON object), a timeout (`ECONNABORTED`), or a transport
error carrying only a message. -/
inductive BackendResult where
  | response (status : Nat) (body : String) (detail : Option String)
      (message : String)
  | timedOut
  | connError (message : String)
deriving DecidableEq, Repr

/-- How the `axios(...)` call in `routeToService` settles.  `ok` is the
fulfilled promise; the other variants are the rejections inspected in the
`catch` block (`error.response`, the ECONNABORTED code,
`error.message`). -/
inductive ForwardOutcome where
  | ok (status : Nat) (body : String)
  | errResponse (status : Nat) (detail : Option String) (message : String)
  | timedOut
  | transportError (message : String)
deriving DecidableEq, Repr

/-- The axios call with no `validateStatus` override: the promise is
fulfilled exactly when the settled response status is in 200..299 (the
documented default `status >= 200 && status < 300`); any other settled
status rejects with `error.response` attached; `ECONNABORTED` and
transport errors reject without a response. -/
def axiosForward : BackendResult → ForwardOutcome
  | BackendResult.response s body d msg =>
    if 200 ≤ s ∧ s < 300 then ForwardOutcome.ok s body
    else ForwardOutcome.errResponse s d msg
  | BackendResult.timedOut => ForwardOutcome.timedOut
  | BackendResult.connError msg => ForwardOutcome.transportError msg

/-- A response body sent by the gateway: either the backend body relayed
as-is (`res.send(response.data)`), or a JSON object with a single `detail`
field (`res.json(...)`). -/
inductive RespBody where
  | raw (s : String)
  | jsonDetail (s : String)
deriving DecidableEq, Repr

/-- `error.response?.status || 500`: a missing status is handled by the
caller; status `0` is falsy in JS. -/
def jsStatusOr500 (s : Nat) : Nat := if s = 0 then 500 else s

/-- `error.response?.data?.detail || error.message`: a missing or
empty-string `detail` falls back to the error message. -/
def jsDetailOr (d : Option String) (msg : String) : String :=
  match d with
  | some dd => if dd = "" then msg else dd
  | none => msg

/-- Everything `routeToService` produces: the HTTP response, the breaker
record after outcome accounting, the load map after sampling, and the
instance the request was forwarded to (`none` when no forward happened). -/
structure RouteResult where
  status : Nat
  body : RespBody
  breaker : Breaker
  loadMap : LoadMap
  forwardedTo : Option String
deriving DecidableEq, Repr

/-- `routeToService(serviceType, req, res)` (line 318), with the ambient
state passed explicitly: breaker gate, registry read (`ips`, already `[]`
when Redis is down), selection, forward, and outcome accounting in the
`try`/`catch`. -/
def routeToService (errorThreshold : Nat) (errorTimeout : Int)
    (serviceType : String) (now : Int) (healthy : String → Bool)
    (sample : String → Option (Option Int)) (ips : List String)
    (backend : String → BackendResult) (b : Breaker) (m : LoadMap) :
    RouteResult :=
  let serviceName := "service" ++ serviceType
  let g := checkCircuitBreaker errorTimeout now b
  if g.1 = false then
    { status := 503,
      body := RespBody.jsonDetail
        (serviceName ++ " is currently unavailable (Circuit Breaker: OPEN)"),
      breaker := g.2, loadMap := m, forwardedTo := none }
  else if ips.isEmpty then
    { status := 503,
      body := RespBody.jsonDetail
        (serviceName ++ " is not available or Redis is disconnected"),
      breaker := g.2, loadMap := m, forwardedTo := none }
  else
    let sel := selectServiceInstance healthy sample m ips
    match sel.1 with
    | none =>
      { status := 503,
        body := RespBody.jsonDetail
          ("No available instances for " ++ serviceName),
        breaker := g.2, loadMap := sel.2, forwardedTo := none }
    | some inst =>
      match axiosForward (backend inst) with
      | ForwardOutcome.ok s body =>
        { status := s, body := RespBody.raw body,
          breaker := recordSuccess g.2, loadMap := sel.2,
          forwardedTo := some inst }
      | ForwardOutcome.errResponse s d msg =>
        { status := jsStatusOr500 s,
          body := RespBody.jsonDetail (jsDetailOr d msg),
          breaker := recordFailure errorThreshold errorTimeout now g.2,
          loadMap := sel.2, forwardedTo := some inst }
      | ForwardOutcome.timedOut =>
        { status := 504, body := RespBody.jsonDetail "Request timed out",
          breaker := recordFailure errorThreshold errorTimeout now g.2,
          loadMap := sel.2, forwardedTo := some inst }
      | ForwardOutcome.transportError msg =>
        { status := 500, body := RespBody.jsonDetail msg,
          breaker := recordFailure errorThreshold errorTimeout now g.2,
          loadMap := sel.2, forwardedTo := some inst }

/-! ## Admission limiter (`taskLimiter`) -/

/-- `taskLimiter` (line 443) at request arrival: at or above the cap the
request is rejected with 503 and the counter untouched (the decrement
handler is only registered after admission); below the cap the counter is
incremented and the request proceeds. -/
def taskLimiter (maxConcurrent : Int) (c : Int) :
    Option (Nat × RespBody) × Int :=
  if c ≥ maxConcurrent then
    (some (503, RespBody.jsonDetail
      "API Gateway is busy. Please try again later."), c)
  else
    (none, c + 1)

/-- The finish handler an admitted request registered: decrement the
counter once when its response finishes. -/
def finishDecrement (c : Int) : Int := c - 1

/-- Reachable limiter states: the live counter value paired with the ghost
number of admitted requests whose responses have not yet finished.  An
arrival steps through `taskLimiter`; each admitted request fires its
finish handler exactly once, and only after being admitted. -/
inductive LimReach (maxConcurrent : Int) : Int → Nat → Prop where
  | init : LimReach maxConcurrent 0 0
  | arriveReject {c : Int} {n : Nat} :
      LimReach maxConcurrent c n →
      (taskLimiter maxConcurrent c).1.isSome →
      LimReach maxConcurrent (taskLimiter maxConcurrent c).2 n
  | arriveAdmit {c : Int} {n : Nat} :
      LimReach maxConcurrent c n →
      (taskLimiter maxConcurrent c).1 = none →
      LimReach maxConcurrent (taskLimiter maxConcurrent c).2 (n + 1)
  | finish {c : Int} {n : Nat} :
      LimReach maxConcurrent c (n + 1) →
      LimReach maxConcurrent (finishDecrement c) n

/-! ## Breaker state-machine claims -/

/-- C2: the claim says a CLOSED breaker opens on a failure only when the
incremented count reaches `errorThreshold` AND the previous failure was at
most `errorTimeout` ms ago, and that an out-of-window failure resets the
count to 1 and leaves the breaker CLOSED.  The code updates
`breaker.lastFailure = now` before comparing `now - breaker.lastFailure`
to the window, so the comparison is `0 <= ERROR_TIMEOUT` and always
succeeds: at the failing input below the previous failure was 20000 ms ago
(beyond the 17500 ms window) with 2 prior failures, yet the breaker opens
with `failures = 3` instead of staying CLOSED with `failures = 1`. -/
theorem recordFailure_window_check_ineffective :
    (recordFailure 3 17500 20000
        { failures := 2, lastFailure := some 0, state := BState.CLOSED,
          reroutes := 0, lastReroute := none,
          consecutiveReroutes := 0 }).state = BState.OPEN ∧
    (recordFailure 3 17500 20000
        { failures := 2, lastFailure := some 0, state := BState.CLOSED,
          reroutes := 0, lastReroute := none,
          consecutiveReroutes := 0 }).failures = 3 ∧
    (20000 : Int) - 0 > 17500 := by
  refine ⟨rfl, rfl, by norm_num⟩

/-- C4 counterexample: a success recorded while the breaker is CLOSED
leaves `consecutiveReroutes` untouched (here at 3), and a reroute recorded
more than the 5000 ms window after `lastRerouteAt` sets the counter to 1,
not 0 — so the claimed first and third reset-to-zero situations do not
happen in the code. -/
theorem consecutiveReroutes_reset_sites_cex :
    (recordSuccess
        { failures := 0, lastFailure := none, state := BState.CLOSED,
          reroutes := 0, lastReroute := none,
          consecutiveReroutes := 3 }).consecutiveReroutes = 3 ∧
    ((recordReroute 5 9000
        { failures := 0, lastFailure := none, state := BState.CLOSED,
          reroutes := 0, lastReroute := some 100,
          consecutiveReroutes := 1 }).2).consecutiveReroutes = 1 ∧
    (3 : Nat) ≠ 0 ∧ (1 : Nat) ≠ 0 ∧ (9000 : Int) - 100 > 5000 := by
  refine ⟨rfl, by decide, by decide, by decide, by norm_num⟩

/-- C4 (amended): `consecutiveReroutes` becomes 0 in exactly two
situations — a success recorded while the breaker is HALF-OPEN, and the
OPEN to HALF-OPEN transition of the dispatch gate.  A success in any other
state and a failure leave it unchanged, and a reroute recorded outside the
5000 ms window sets it to 1 (inside the window it increments). -/
theorem consecutiveReroutes_reset_sites (rth eth : Nat) (tout now : Int)
    (b : Breaker) :
    (recordSuccess b).consecutiveReroutes =
      (if b.state = BState.HALF_OPEN then 0 else b.consecutiveReroutes) ∧
    ((checkCircuitBreaker tout now b).2).consecutiveReroutes =
      (if b.state = BState.OPEN ∧ now - b.lastFailure.getD 0 > tout then 0
       else b.consecutiveReroutes) ∧
    (recordFailure eth tout now b).consecutiveReroutes =
      b.consecutiveReroutes ∧
    ((recordReroute rth now b).2).consecutiveReroutes =
      (if rerouteIsConsec now b then b.consecutiveReroutes + 1 else 1) := by
  refine ⟨?_, ?_, ?_, ?_⟩
  · unfold recordSuccess
    split <;> simp_all
  · unfold checkCircuitBreaker
    rcases b with ⟨f, lf, st, r, lr, cr⟩
    by_cases hst : st = BState.OPEN <;>
      by_cases ht : now - (Option.getD lf 0) > tout <;>
        simp [hst, ht]
  · unfold recordFailure
    dsimp only
    split_ifs <;> rfl
  · unfold recordReroute
    dsimp only
    split_ifs <;> rfl

/-- C6: a success recorded on a HALF-OPEN breaker closes it and zeroes
`failures`, `lastFailureAt` and `consecutiveReroutes` (the diagnostic
`reroutes` counter and `lastRerouteAt` are untouched). -/
theorem halfOpen_success_closes (b : Breaker)
    (h : b.state = BState.HALF_OPEN) :
    recordSuccess b =
      { b with state := BState.CLOSED, failures := 0, lastFailure := none,
               consecutiveReroutes := 0 } := by
  unfold recordSuccess
  simp [h]

/-- Witness for C6 at a concrete HALF-OPEN record. -/
theorem halfOpen_success_closes_witness :
    recordSuccess
        { failures := 2, lastFailure := some 7, state := BState.HALF_OPEN,
          reroutes := 4, lastReroute := some 3,
          consecutiveReroutes := 1 } =
      { failures := 0, lastFailure := none, state := BState.CLOSED,
        reroutes := 4, lastReroute := some 3,
        consecutiveReroutes := 0 } := by
  exact halfOpen_success_closes
    { failures := 2, lastFailure := some 7, state := BState.HALF_OPEN,
      reroutes := 4, lastReroute := some 3, consecutiveReroutes := 1 } rfl

/-! ## Admission limiter claims -/

/-- In every reachable limiter state the live counter equals the ghost
count of admitted-unfinished requests and stays at most the cap. -/
theorem LimReach.counter_eq_and_le {maxConcurrent c : Int} {n : Nat}
    (hm : 0 ≤ maxConcurrent) (hr : LimReach maxConcurrent c n) :
    c = n ∧ c ≤ maxConcurrent := by
  induction hr with
  | init => exact ⟨rfl, hm⟩
  | @arriveReject c n hr hd ih =>
    by_cases hc : c ≥ maxConcurrent
    · simpa [taskLimiter, hc] using ih
    · simp [taskLimiter, hc] at hd
  | @arriveAdmit c n hr hd ih =>
    by_cases hc : c ≥ maxConcurrent
    · simp [taskLimiter, hc] at hd
    · obtain ⟨ih1, ih2⟩ := ih
      simp [taskLimiter, hc]
      omega
  | @finish c n hr ih =>
    obtain ⟨ih1, ih2⟩ := ih
    unfold finishDecrement
    constructor
    · push_cast at ih1 ⊢
      omega
    · omega

/-- C3: in every reachable state of the admission limiter the counter
satisfies `0 ≤ counter ≤ maxConcurrentRequests`; a request arriving at the
cap is rejected with 503 and the busy body without touching the counter
(its decrement handler is never registered), and a request arriving below
the cap is admitted with the counter incremented once before any
downstream work; each admitted request decrements the counter exactly once
when its finish handler fires. -/
theorem admission_counter_invariant (maxConcurrent c : Int) (n : Nat)
    (hm : 0 ≤ maxConcurrent) (hr : LimReach maxConcurrent c n) :
    (0 ≤ c ∧ c ≤ maxConcurrent ∧ c = n) ∧
    (maxConcurrent ≤ c →
      taskLimiter maxConcurrent c =
        (some (503, RespBody.jsonDetail
          "API Gateway is busy. Please try again later."), c)) ∧
    (c < maxConcurrent →
      taskLimiter maxConcurrent c = (none, c + 1)) ∧
    finishDecrement c = c - 1 := by
  obtain ⟨h1, h2⟩ := hr.counter_eq_and_le hm
  refine ⟨⟨by omega, h2, h1⟩, ?_, ?_, rfl⟩
  · intro hge
    unfold taskLimiter
    rw [if_pos (by omega)]
  · intro hlt
    unfold taskLimiter
    rw [if_neg (by omega)]

/-- Witness for C3: with cap 2, the state after one admitted arrival is
reachable, its counter is 1, and the stated arrival behaviours hold
there. -/
theorem admission_counter_invariant_witness :
    (0 ≤ (1 : Int) ∧ (1 : Int) ≤ 2 ∧ (1 : Int) = (1 : Nat)) ∧
    ((2 : Int) ≤ 1 →
      taskLimiter 2 1 =
        (some (503, RespBody.jsonDetail
          "API Gateway is busy. Please try again later."), 1)) ∧
    ((1 : Int) < 2 → taskLimiter 2 1 = (none, 2)) ∧
    finishDecrement 1 = 0 := by
  have hreach : LimReach 2 1 1 := by
    have h0 : LimReach 2 0 0 := LimReach.init
    have h1 := LimReach.arriveAdmit (c := 0) (n := 0) h0 (by decide)
    simpa [taskLimiter] using h1
  have h := admission_counter_invariant 2 1 1 (by norm_num) hreach
  refine ⟨h.1, h.2.1, ?_, ?_⟩
  · intro hlt
    have := h.2.2.1 hlt
    simpa using this
  · simpa using h.2.2.2

/-- C10: for a CLOSED or HALF-OPEN breaker the dispatch gate admits the
request and leaves the whole record unchanged — in particular nothing
limits concurrent HALF-OPEN probes to a single request. -/
theorem gate_frame_closed_halfopen (tout now : Int) (b : Breaker)
    (h : b.state = BState.CLOSED ∨ b.state = BState.HALF_OPEN) :
    checkCircuitBreaker tout now b = (true, b) := by
  unfold checkCircuitBreaker
  rcases h with h | h <;> simp [h]

/-- Witness for C10 at a concrete HALF-OPEN record. -/
theorem gate_frame_closed_halfopen_witness :
    checkCircuitBreaker 17500 99999
        { failures := 2, lastFailure := some 7, state := BState.HALF_OPEN,
          reroutes := 0, lastReroute := none, consecutiveReroutes := 0 } =
      (true,
        { failures := 2, lastFailure := some 7, state := BState.HALF_OPEN,
          reroutes := 0, lastReroute := none,
          consecutiveReroutes := 0 }) := by
  exact gate_frame_closed_halfopen 17500 99999
    { failures := 2, lastFailure := some 7, state := BState.HALF_OPEN,
      reroutes := 0, lastReroute := none, consecutiveReroutes := 0 }
    (Or.inr rfl)

/-! ## Selection lemmas -/

/-- The comparator order is reflexive. -/
theorem leKey_refl (a : Option Int) : leKey a a = true := by
  cases a <;> simp [leKey, ltKey]

/-- A strictly smaller key is also non-strictly smaller. -/
theorem leKey_of_ltKey {a b : Option Int} (h : ltKey a b = true) :
    leKey a b = true := by
  cases a <;> cases b <;> simp [leKey, ltKey] at * <;> omega

/-- Failure of the strict comparison flips into the non-strict one. -/
theorem leKey_of_not_ltKey {a b : Option Int} (h : ltKey a b = false) :
    leKey b a = true := by
  simp [leKey, h]

/-- The comparator order is transitive. -/
theorem leKey_trans {a b c : Option Int} (h1 : leKey a b = true)
    (h2 : leKey b c = true) : leKey a c = true := by
  cases a <;> cases b <;> cases c <;> simp [leKey, ltKey] at * <;> omega

/-- Membership through a stable insertion step. -/
theorem mem_insertByLoad {x y : String × Option Int}
    {l : List (String × Option Int)} (h : x ∈ insertByLoad y l) :
    x = y ∨ x ∈ l := by
  induction l with
  | nil => simpa [insertByLoad] using h
  | cons z zs ih =>
    unfold insertByLoad at h
    split_ifs at h
    · rcases List.mem_cons.mp h with h1 | h1
      · exact Or.inl h1
      · exact Or.inr h1
    · rcases List.mem_cons.mp h with h1 | h1
      · exact Or.inr (by simp [h1])
      · rcases ih h1 with h2 | h2
        · exact Or.inl h2
        · exact Or.inr (List.mem_cons_of_mem _ h2)

/-- Membership through the sorting fold. -/
theorem mem_foldl_insert {x : String × Option Int} :
    ∀ (l acc : List (String × Option Int)),
      x ∈ List.foldl (fun a y => insertByLoad y a) acc l →
      x ∈ acc ∨ x ∈ l := by
  intro l
  induction l with
  | nil => intro acc h; exact Or.inl h
  | cons z zs ih =>
    intro acc h
    rcases ih (insertByLoad z acc) h with h1 | h1
    · rcases mem_insertByLoad h1 with h2 | h2
      · exact Or.inr (by simp [h2])
      · exact Or.inl h2
    · exact Or.inr (List.mem_cons_of_mem _ h1)

/-- The stable sort only permutes: every output entry is an input entry. -/
theorem mem_sortByLoad {x : String × Option Int}
    {l : List (String × Option Int)} (h : x ∈ sortByLoad l) : x ∈ l := by
  rcases mem_foldl_insert l [] h with h1 | h1
  · simp at h1
  · exact h1

/-- Head of a stable insertion step. -/
theorem head_insertByLoad (x : String × Option Int)
    (l : List (String × Option Int)) :
    (insertByLoad x l).head? =
      some (match l.head? with
            | none => x
            | some h => if ltKey x.2 h.2 then x else h) := by
  cases l with
  | nil => rfl
  | cons y ys =>
    unfold insertByLoad
    split_ifs with h <;> simp [h]

/-- Head of the sorting fold: folding further insertions into a non-empty
sorted accumulator keeps the running first minimum at the head. -/
theorem head_foldl_insert :
    ∀ (l acc : List (String × Option Int)) (h : String × Option Int),
      acc.head? = some h →
      (List.foldl (fun a y => insertByLoad y a) acc l).head? =
        some (firstMinAux h l) := by
  intro l
  induction l with
  | nil =>
    intro acc h hh
    simpa [firstMinAux] using hh
  | cons z zs ih =>
    intro acc h hh
    have hstep : (insertByLoad z acc).head? =
        some (if ltKey z.2 h.2 then z else h) := by
      rw [head_insertByLoad, hh]
    simp only [List.foldl_cons]
    have := ih (insertByLoad z acc) (if ltKey z.2 h.2 then z else h) hstep
    rw [this]
    rfl

/-- The head of the stable sort of a non-empty list is its first minimal
entry. -/
theorem sortByLoad_head (h : String × Option Int)
    (t : List (String × Option Int)) :
    (sortByLoad (h :: t)).head? = some (firstMinAux h t) := by
  unfold sortByLoad
  simp only [List.foldl_cons]
  exact head_foldl_insert t (insertByLoad h []) h rfl

/-- The first minimum is one of the scanned entries. -/
theorem firstMinAux_mem :
    ∀ (l : List (String × Option Int)) (best : String × Option Int),
      firstMinAux best l = best ∨ firstMinAux best l ∈ l := by
  intro l
  induction l with
  | nil => intro best; exact Or.inl rfl
  | cons x xs ih =>
    intro best
    unfold firstMinAux
    rcases ih (if ltKey x.2 best.2 then x else best) with h1 | h1
    · rw [h1]
      split_ifs with h2
      · exact Or.inr (by simp)
      · exact Or.inl rfl
    · exact Or.inr (List.mem_cons_of_mem _ h1)

/-- The first minimum is minimal for the comparator order. -/
theorem firstMinAux_le :
    ∀ (l : List (String × Option Int)) (best : String × Option Int),
      leKey (firstMinAux best l).2 best.2 = true ∧
      ∀ p ∈ l, leKey (firstMinAux best l).2 p.2 = true := by
  intro l
  induction l with
  | nil =>
    intro best
    exact ⟨leKey_refl _, by simp⟩
  | cons x xs ih =>
    intro best
    unfold firstMinAux
    by_cases h : ltKey x.2 best.2 = true
    · rw [if_pos h]
      obtain ⟨ih1, ih2⟩ := ih x
      refine ⟨leKey_trans ih1 (leKey_of_ltKey h), ?_⟩
      intro p hp
      rcases List.mem_cons.mp hp with h1 | h1
      · rw [h1]; exact ih1
      · exact ih2 p h1
    · rw [if_neg (by simp_all)]
      obtain ⟨ih1, ih2⟩ := ih best
      refine ⟨ih1, ?_⟩
      intro p hp
      rcases List.mem_cons.mp hp with h1 | h1
      · rw [h1]
        exact leKey_trans ih1
          (leKey_of_not_ltKey (by simpa using h))
      · exact ih2 p h1

/-- The head of a non-empty list with a default is a member. -/
theorem headD_mem {l : List String} (h : l ≠ []) (d : String) :
    l.headD d ∈ l := by
  cases l with
  | nil => exact absurd rfl h
  | cons a t => simp

/-- With a non-empty instance list, selection always yields an instance. -/
theorem select_fst_isSome (healthy : String → Bool)
    (sample : String → Option (Option Int)) (m : LoadMap)
    (instances : List String) (h : instances ≠ []) :
    ∃ i, (selectServiceInstance healthy sample m instances).1 = some i := by
  unfold selectServiceInstance
  rw [if_neg (by simpa [List.isEmpty_iff] using h)]
  dsimp only
  split_ifs
  · exact ⟨_, rfl⟩
  · split
    · split_ifs <;> exact ⟨_, rfl⟩
    · exact ⟨_, rfl⟩

/-- With an empty instance list, selection yields nothing. -/
theorem select_fst_nil (healthy : String → Bool)
    (sample : String → Option (Option Int)) (m : LoadMap) :
    (selectServiceInstance healthy sample m []).1 = none := by
  rfl

/-- Every selected instance is a member of the instance list passed in. -/
theorem select_fst_mem (healthy : String → Bool)
    (sample : String → Option (Option Int)) (m : LoadMap)
    (instances : List String) (r : String)
    (hr : (selectServiceInstance healthy sample m instances).1 = some r) :
    r ∈ instances := by
  unfold selectServiceInstance at hr
  by_cases hi : instances.isEmpty
  · rw [if_pos hi] at hr
    simp at hr
  · rw [if_neg hi] at hr
    have hine : instances ≠ [] := by
      simpa [List.isEmpty_iff] using hi
    dsimp only at hr
    by_cases hh : (instances.filter healthy).isEmpty
    · rw [if_pos hh] at hr
      have : instances.headD "" = r := by simpa using hr
      rw [← this]
      exact headD_mem hine ""
    · rw [if_neg hh] at hr
      have hhne : instances.filter healthy ≠ [] := by
        simpa [List.isEmpty_iff] using hh
      have hsub : ∀ x ∈ instances.filter healthy, x ∈ instances :=
        fun x hx => List.mem_of_mem_filter hx
      rcases hsort : (sortByLoad ((instances.filter healthy).foldl
          (updateServiceLoad sample) m |>.filter
            (fun p => (instances.filter healthy).contains p.1))).head? with
        _ | kv
      · rw [hsort] at hr
        have : (instances.filter healthy).headD "" = r := by simpa using hr
        rw [← this]
        exact hsub _ (headD_mem hhne "")
      · rw [hsort] at hr
        have hkv : kv ∈ sortByLoad ((instances.filter healthy).foldl
            (updateServiceLoad sample) m |>.filter
              (fun p => (instances.filter healthy).contains p.1)) := by
          cases hs : sortByLoad ((instances.filter healthy).foldl
              (updateServiceLoad sample) m |>.filter
                (fun p => (instances.filter healthy).contains p.1)) with
          | nil => rw [hs] at hsort; simp at hsort
          | cons a t =>
            rw [hs] at hsort
            simp at hsort
            simp [hsort]
        have hkvf := mem_sortByLoad hkv
        have hkv1 : kv.1 ∈ instances.filter healthy := by
          have := (List.mem_filter.mp hkvf).2
          simpa using this
        dsimp only at hr
        by_cases hblank : kv.1 = ""
        · rw [if_pos hblank] at hr
          have : (instances.filter healthy).headD "" = r := by simpa using hr
          rw [← this]
          exact hsub _ (headD_mem hhne "")
        · rw [if_neg hblank] at hr
          have : kv.1 = r := by simpa using hr
          rw [← this]
          exact hsub _ hkv1

/-! ## Selector claims -/

/-- C8: the selected instance is always a member of the instance list
passed in; the result is `none` exactly when that list is empty; and when
no instance is healthy the first element of the list is returned as the
last-resort fallback. -/
theorem selector_membership (healthy : String → Bool)
    (sample : String → Option (Option Int)) (m : LoadMap)
    (instances : List String) :
    ((selectServiceInstance healthy sample m instances).1 = none ↔
      instances = []) ∧
    (instances ≠ [] → instances.filter healthy = [] →
      (selectServiceInstance healthy sample m instances).1 =
        some (instances.headD "")) ∧
    (∀ r, (selectServiceInstance healthy sample m instances).1 = some r →
      r ∈ instances) := by
  refine ⟨⟨?_, ?_⟩, ?_, ?_⟩
  · intro h
    by_contra hne
    obtain ⟨i, hi⟩ := select_fst_isSome healthy sample m instances hne
    rw [h] at hi
    exact Option.noConfusion hi
  · intro h
    subst h
    exact select_fst_nil healthy sample m
  · intro hne hfil
    unfold selectServiceInstance
    rw [if_neg (by simpa [List.isEmpty_iff] using hne)]
    dsimp only
    rw [if_pos (by simp [hfil])]
  · intro r hr
    exact select_fst_mem healthy sample m instances r hr

/-- Witness for C8: with no healthy instance the selector returns the
first list element, which is a member of the list. -/
theorem selector_membership_witness :
    (selectServiceInstance (fun _ => false) (fun _ => none) []
        ["a", "b"]).1 = some "a" ∧
    ("a" : String) ∈ (["a", "b"] : List String) := by
  have h := selector_membership (fun _ => false) (fun _ => none) []
    ["a", "b"]
  have h2 := h.2.1 (by simp) (by simp)
  refine ⟨by simpa using h2, h.2.2 "a" (by simpa using h2)⟩

/-- C7 (amended): when the load map, after the sampling pass, still holds
an entry for at least one healthy instance, the selector returns the first
entry — in load-map insertion order, not registry order — whose stored
`requestsPerSecond` is minimal (a missing field sorts last); the stored
value may be stale when the current sample failed, and healthy instances
absent from the map are never chosen in this case.  The `hblank`
hypothesis rules out the empty-string instance name, which the source's
`||` fallback would divert. -/
theorem selector_min_load_amended (healthy : String → Bool)
    (sample : String → Option (Option Int)) (m : LoadMap)
    (instances : List String) (hblank : "" ∉ instances)
    (kv : String × Option Int)
    (hmin : firstMin (((instances.filter healthy).foldl
        (updateServiceLoad sample) m).filter
          (fun p => (instances.filter healthy).contains p.1)) = some kv) :
    (selectServiceInstance healthy sample m instances).1 = some kv.1 ∧
    kv.1 ∈ instances.filter healthy ∧
    ∀ p ∈ ((instances.filter healthy).foldl
        (updateServiceLoad sample) m).filter
          (fun p => (instances.filter healthy).contains p.1),
      leKey kv.2 p.2 = true := by
  rcases hfmeq : (((instances.filter healthy).foldl
      (updateServiceLoad sample) m).filter
        (fun p => (instances.filter healthy).contains p.1)) with _ | ⟨fh, ft⟩
  · rw [hfmeq] at hmin
    simp [firstMin] at hmin
  · rw [hfmeq] at hmin
    unfold firstMin at hmin
    have hkv : kv = firstMinAux fh ft := by
      have := Option.some.inj hmin
      exact this.symm
    have hkvmem : kv ∈ (((instances.filter healthy).foldl
        (updateServiceLoad sample) m).filter
          (fun p => (instances.filter healthy).contains p.1)) := by
      rw [hfmeq, hkv]
      rcases firstMinAux_mem ft fh with h1 | h1
      · rw [h1]; simp
      · exact List.mem_cons_of_mem _ h1
    have hkv1 : kv.1 ∈ instances.filter healthy := by
      have := (List.mem_filter.mp hkvmem).2
      simpa using this
    have hkvinst : kv.1 ∈ instances := List.mem_of_mem_filter hkv1
    have hine : instances ≠ [] := List.ne_nil_of_mem hkvinst
    have hhne : instances.filter healthy ≠ [] := List.ne_nil_of_mem hkv1
    have hkvblank : ¬kv.1 = "" := by
      intro hcontra
      rw [hcontra] at hkvinst
      exact hblank hkvinst
    refine ⟨?_, hkv1, ?_⟩
    · unfold selectServiceInstance
      rw [if_neg (by simpa [List.isEmpty_iff] using hine)]
      dsimp only
      rw [if_neg (by simpa [List.isEmpty_iff] using hhne)]
      rw [hfmeq, sortByLoad_head fh ft]
      dsimp only
      rw [← hkv, if_neg hkvblank]
    · intro p hp
      rw [hfmeq] at hp
      rcases List.mem_cons.mp hp with h1 | h1
      · rw [h1, hkv]
        exact (firstMinAux_le ft fh).1
      · rw [hkv]
        exact (firstMinAux_le ft fh).2 p h1

/-- Witness for C7 (amended) at a concrete two-instance selection where
the fresh samples give loads 10 and 3: the 3-rps instance is chosen and
its key is minimal. -/
theorem selector_min_load_amended_witness :
    (selectServiceInstance (fun _ => true)
        (fun i => if i = "a" then some (some 10) else some (some 3)) []
        ["a", "b"]).1 = some "b" ∧
    ("b" : String) ∈ (["a", "b"] : List String).filter (fun _ => true) ∧
    leKey (some 3) (some 10) = true := by
  have h := selector_min_load_amended (fun _ => true)
      (fun i => if i = "a" then some (some 10) else some (some 3)) []
      ["a", "b"] (by decide) ("b", some 3) (by rfl)
  refine ⟨h.1, h.2.1, ?_⟩
  exact h.2.2 ("a", some 10) (by decide)

/-- The concrete per-instance sample outcome for the C7 counterexample:
the scrape of i1 fails (returns `null`), the scrape of i2 succeeds with 30
requests per second. -/
def cexSample : String → Option (Option Int) :=
  fun i => if i = "i2" then some (some 30) else none

/-- C7 counterexample: healthy instances i1 and i2, where the load map
already holds a stale entry 5 for i1 from an earlier cycle; i1's current
sample fails (`null`) while i2's succeeds with 30.  The claim says an
instance with a failed (unknown) sample is ordered after every instance
with known load, so i2 must be selected — but the code sorts i1 by its
stale stored value 5 and selects i1. -/
theorem selector_stale_load_cex :
    (selectServiceInstance (fun _ => true) cexSample
        [("i1", some 5), ("i2", some 50)] ["i1", "i2"]).1 = some "i1" ∧
    cexSample "i1" = none ∧
    cexSample "i2" = some (some 30) ∧
    (selectServiceInstance (fun _ => true) cexSample
        [("i1", some 5), ("i2", some 50)] ["i1", "i2"]).1 ≠ some "i2" := by
  refine ⟨by decide, by decide, by decide, by decide⟩

/-! ## Router lemmas -/

/-- A breaker that is not OPEN passes the gate untouched. -/
theorem checkCircuitBreaker_not_open {b : Breaker} (tout now : Int)
    (h : b.state ≠ BState.OPEN) :
    checkCircuitBreaker tout now b = (true, b) := by
  unfold checkCircuitBreaker
  rw [if_neg h]

/-- A success on a breaker that is not HALF-OPEN changes nothing. -/
theorem recordSuccess_not_halfOpen {b : Breaker}
    (h : b.state ≠ BState.HALF_OPEN) : recordSuccess b = b := by
  unfold recordSuccess
  rw [if_neg h]

/-- With a non-negative window, `recordFailure` always increments the
failure count: the in-window comparison is made against the timestamp it
just wrote, so the reset branch never runs. -/
theorem recordFailure_failures {b : Breaker} {eth : Nat} {tout : Int}
    (now : Int) (htout : 0 ≤ tout) :
    (recordFailure eth tout now b).failures = b.failures + 1 := by
  unfold recordFailure
  dsimp only
  split_ifs with h1 h2
  · rfl
  · exact absurd (by simpa using htout) h2
  · rfl

/-- The gate never touches the diagnostic `reroutes` counter. -/
theorem checkCircuitBreaker_reroutes (tout now : Int) (b : Breaker) :
    ((checkCircuitBreaker tout now b).2).reroutes = b.reroutes := by
  unfold checkCircuitBreaker
  split_ifs <;> rfl

/-- `recordSuccess` never touches the `reroutes` counter. -/
theorem recordSuccess_reroutes (b : Breaker) :
    (recordSuccess b).reroutes = b.reroutes := by
  unfold recordSuccess
  split_ifs <;> rfl

/-- `recordFailure` never touches the `reroutes` counter. -/
theorem recordFailure_reroutes (eth : Nat) (tout now : Int) (b : Breaker) :
    (recordFailure eth tout now b).reroutes = b.reroutes := by
  unfold recordFailure
  dsimp only
  split_ifs <;> rfl

/-! ## Router claims -/

/-- C9 (amended): no request path increments the `reroutes` counter —
`recordReroute`, the only function that would, is defined in the source
but never called, so even the probing request that consumes the
OPEN to HALF-OPEN transition leaves `reroutes` unchanged. -/
theorem reroutes_counter_constant (eth : Nat) (tout : Int) (sT : String)
    (now : Int) (healthy : String → Bool)
    (sample : String → Option (Option Int)) (ips : List String)
    (backend : String → BackendResult) (b : Breaker) (m : LoadMap) :
    (routeToService eth tout sT now healthy sample ips backend
        b m).breaker.reroutes = b.reroutes := by
  unfold routeToService
  dsimp only
  split_ifs
  · exact checkCircuitBreaker_reroutes tout now b
  · exact checkCircuitBreaker_reroutes tout now b
  · split
    · exact checkCircuitBreaker_reroutes tout now b
    · split <;>
        simp [recordSuccess_reroutes, recordFailure_reroutes,
          checkCircuitBreaker_reroutes]

/-- The concrete OPEN breaker, 20000 ms after its last failure, used for
the probe counterexample. -/
def probeBreaker : Breaker :=
  { failures := 3, lastFailure := some 0, state := BState.OPEN,
    reroutes := 0, lastReroute := none, consecutiveReroutes := 1 }

/-- The routing of a probe request against `probeBreaker`: the gate
consumes the OPEN to HALF-OPEN transition and the request is forwarded to
the single instance. -/
def probeRoute : RouteResult :=
  routeToService 3 17500 "A" 20000 (fun _ => false) (fun _ => none)
    ["10.0.0.1"] (fun _ => BackendResult.response 200 "okbody" none "")
    probeBreaker []

/-- C9 counterexample: a probing request consumes the OPEN to HALF-OPEN
transition (the breaker was OPEN, 20000 ms > 17500 ms since the last
failure, and the request is forwarded), yet the `reroutes` counter stays
at 0 instead of increasing by one as the claim requires. -/
theorem reroutes_probe_not_incremented_cex :
    probeBreaker.state = BState.OPEN ∧ (20000 : Int) - 0 > 17500 ∧
    probeRoute.forwardedTo = some "10.0.0.1" ∧
    probeBreaker.reroutes = 0 ∧ probeRoute.breaker.reroutes = 0 := by
  refine ⟨rfl, by norm_num, by decide, rfl, by decide⟩

/-- C5: dispatching to a service whose breaker is OPEN: past the
`errorTimeout` dwell the gate moves the breaker to HALF-OPEN with
`consecutiveReroutes := 0` and the request is forwarded (whenever the
registry lists any instance); within the dwell the breaker is left OPEN
untouched and the Router answers 503 with the circuit-breaker body,
without forwarding. -/
theorem open_breaker_gate_behavior (eth : Nat) (tout now : Int)
    (sT : String) (healthy : String → Bool)
    (sample : String → Option (Option Int)) (ips : List String)
    (backend : String → BackendResult) (b : Breaker) (m : LoadMap)
    (hb : b.state = BState.OPEN) :
    (now - b.lastFailure.getD 0 > tout →
      checkCircuitBreaker tout now b =
        (true, { b with state := BState.HALF_OPEN,
                        consecutiveReroutes := 0 }) ∧
      (ips ≠ [] →
        (routeToService eth tout sT now healthy sample ips backend
            b m).forwardedTo ≠ none)) ∧
    (now - b.lastFailure.getD 0 ≤ tout →
      checkCircuitBreaker tout now b = (false, b) ∧
      routeToService eth tout sT now healthy sample ips backend b m =
        { status := 503,
          body := RespBody.jsonDetail ("service" ++ sT ++
            " is currently unavailable (Circuit Breaker: OPEN)"),
          breaker := b, loadMap := m, forwardedTo := none }) := by
  constructor
  · intro hgt
    have hgate : checkCircuitBreaker tout now b =
        (true, { b with state := BState.HALF_OPEN,
                        consecutiveReroutes := 0 }) := by
      unfold checkCircuitBreaker
      rw [if_pos hb, if_pos hgt]
    refine ⟨hgate, ?_⟩
    intro hips
    obtain ⟨i, hi⟩ := select_fst_isSome healthy sample m ips hips
    unfold routeToService
    dsimp only
    rw [hgate]
    rw [if_neg (by simp)]
    rw [if_neg (by simpa [List.isEmpty_iff] using hips)]
    rw [hi]
    dsimp only
    cases axiosForward (backend i) <;> simp
  · intro hle
    have hgate : checkCircuitBreaker tout now b = (false, b) := by
      unfold checkCircuitBreaker
      rw [if_pos hb, if_neg (by omega)]
    refine ⟨hgate, ?_⟩
    unfold routeToService
    dsimp only
    rw [hgate]
    simp

/-- Witness for C5: the concrete probe — OPEN breaker, last failure 20000
ms ago (past the 17500 ms dwell) — moves to HALF-OPEN and the request is
forwarded. -/
theorem open_breaker_gate_behavior_witness :
    checkCircuitBreaker 17500 20000 probeBreaker =
      (true, { probeBreaker with state := BState.HALF_OPEN,
                                 consecutiveReroutes := 0 }) ∧
    probeRoute.forwardedTo ≠ none := by
  have h := open_breaker_gate_behavior 3 17500 20000 "A" (fun _ => false)
    (fun _ => none) ["10.0.0.1"]
    (fun _ => BackendResult.response 200 "okbody" none "") probeBreaker []
    rfl
  have h1 := h.1 (by decide)
  exact ⟨h1.1, h1.2 (by simp)⟩

/-- C1 (amended): with the HTTP client left at its default
`validateStatus`, only a 2xx backend response fulfils the forward promise:
then success is recorded on the breaker (a no-op outside HALF-OPEN) and
status and body are relayed unchanged.  Every other settled status — 3xx
not consumed by redirect-following and, in particular, every 4xx — rejects
the promise, so the Router records a failure (incrementing the failure
count) and answers with the backend status and a JSON detail body instead
of the raw backend body. -/
theorem router_outcome_only_2xx_success (eth : Nat) (tout now : Int)
    (sT : String) (healthy : String → Bool)
    (sample : String → Option (Option Int)) (ips : List String)
    (backend : String → BackendResult) (b : Breaker) (m : LoadMap)
    (s : Nat) (body : String) (d : Option String) (msg : String)
    (hb : b.state = BState.CLOSED) (hips : ips ≠ []) (htout : 0 ≤ tout)
    (hbk : ∀ i, backend i = BackendResult.response s body d msg) :
    (200 ≤ s ∧ s < 300 →
      (routeToService eth tout sT now healthy sample ips backend
          b m).breaker = b ∧
      (routeToService eth tout sT now healthy sample ips backend
          b m).status = s ∧
      (routeToService eth tout sT now healthy sample ips backend
          b m).body = RespBody.raw body) ∧
    (¬(200 ≤ s ∧ s < 300) →
      (routeToService eth tout sT now healthy sample ips backend
          b m).breaker = recordFailure eth tout now b ∧
      (routeToService eth tout sT now healthy sample ips backend
          b m).breaker.failures = b.failures + 1 ∧
      (routeToService eth tout sT now healthy sample ips backend
          b m).status = jsStatusOr500 s ∧
      (routeToService eth tout sT now healthy sample ips backend
          b m).body = RespBody.jsonDetail (jsDetailOr d msg)) := by
  have hgate : checkCircuitBreaker tout now b = (true, b) :=
    checkCircuitBreaker_not_open tout now (by simp [hb])
  obtain ⟨i, hi⟩ := select_fst_isSome healthy sample m ips hips
  constructor
  · intro h2xx
    unfold routeToService
    dsimp only
    rw [hgate]
    rw [if_neg (by simp)]
    rw [if_neg (by simpa [List.isEmpty_iff] using hips)]
    rw [hi]
    dsimp only
    rw [hbk i]
    unfold axiosForward
    dsimp only
    rw [if_pos h2xx]
    refine ⟨?_, rfl, rfl⟩
    exact recordSuccess_not_halfOpen (by simp [hb])
  · intro hnot
    unfold routeToService
    dsimp only
    rw [hgate]
    rw [if_neg (by simp)]
    rw [if_neg (by simpa [List.isEmpty_iff] using hips)]
    rw [hi]
    dsimp only
    rw [hbk i]
    unfold axiosForward
    dsimp only
    rw [if_neg hnot]
    exact ⟨rfl, recordFailure_failures now htout, rfl, rfl⟩

/-- Witness for C1 (amended): a 200 backend response against a CLOSED
breaker leaves the breaker unchanged and relays status and body. -/
theorem router_outcome_only_2xx_success_witness :
    (routeToService 3 17500 "A" 5 (fun _ => false) (fun _ => none) ["x"]
        (fun _ => BackendResult.response 200 "B" none "") Breaker.init
        []).breaker = Breaker.init ∧
    (routeToService 3 17500 "A" 5 (fun _ => false) (fun _ => none) ["x"]
        (fun _ => BackendResult.response 200 "B" none "") Breaker.init
        []).status = 200 ∧
    (routeToService 3 17500 "A" 5 (fun _ => false) (fun _ => none) ["x"]
        (fun _ => BackendResult.response 200 "B" none "") Breaker.init
        []).body = RespBody.raw "B" := by
  exact (router_outcome_only_2xx_success 3 17500 5 "A" (fun _ => false)
    (fun _ => none) ["x"] (fun _ => BackendResult.response 200 "B" none "")
    Breaker.init [] 200 "B" none "" rfl (by simp) (by norm_num)
    (fun i => rfl)).1 (by omega)

/-- The routing of a request whose backend answers 404, against a fresh
CLOSED breaker. -/
def cexRoute404 : RouteResult :=
  routeToService 3 17500 "A" 1000 (fun _ => false) (fun _ => none)
    ["10.0.0.1"]
    (fun _ => BackendResult.response 404 "notfoundbody" (some "nf")
      "Request failed with status code 404")
    Breaker.init []

/-- C1 counterexample: the backend responds 404; the claim says the Router
records success (no failure-count increment) and relays the body
unchanged, but the code rejects the 404 in the HTTP client, records a
failure (count goes 0 to 1) and replaces the body with the JSON detail. -/
theorem router_4xx_records_failure_cex :
    cexRoute404.breaker.failures = 1 ∧ Breaker.init.failures = 0 ∧
    cexRoute404.status = 404 ∧
    cexRoute404.body = RespBody.jsonDetail "nf" ∧
    cexRoute404.body ≠ RespBody.raw "notfoundbody" := by
  refine ⟨by decide, rfl, by decide, by decide, by decide⟩
